import Mathlib

set_option maxRecDepth 100000

/-!
Verification of the Titanic model-selection notebooks.

The repository is a set of Jupyter notebooks that tune classifier
hyperparameters with 5-fold grid-search cross-validation, print the
per-configuration scores with a helper `print_results`, persist the best
estimator per model family with `joblib.dump`, and compare the persisted
models on a validation partition.  This file is a shallow embedding of
that workflow: machine floats become exact rationals, the printed output
becomes a list of structured lines, and the library pieces that are not
part of the repository source (the grid-search driver, the serializer,
the evaluation notebook) are modelled from the specification, as marked
in their doc comments.
-/

namespace Titanic

/-- A hyperparameter value as it appears in the notebooks: an integer
(`n_estimators`, `max_depth`), a fractional value (`learning_rate`), or
the Python value `None` (used for `max_depth`). -/
inductive PValue where
  | int (n : Int)
  | rat (q : ℚ)
  | none
deriving DecidableEq, Repr

/-- One trial configuration: an association list from hyperparameter
name to candidate value, the embedding of a Python parameter dict such
as `max_depth = 4, n_estimators = 250`. -/
abbrev Params := List (String × PValue)

/-- The fields of a fitted `GridSearchCV` object that the notebooks
read: `best_params_`, `cv_results_` with its `mean_test_score`,
`std_test_score` and `params` entries. -/
structure CVResults where
  best_params : Params
  mean_test_score : List ℚ
  std_test_score : List ℚ
  params : List Params
deriving DecidableEq

/-- Round a rational to the nearest integer, halves to even: the
rounding mode of the Python builtin `round`.  The fractional part
`q - ⌊q⌋` equals `(q.num - ⌊q⌋ * q.den) / q.den`, so comparing it with
`1 / 2` is comparing `2 * (q.num - ⌊q⌋ * q.den)` with `q.den`; the
definition works on numerator and denominator directly. -/
def roundHalfEven (q : ℚ) : ℤ :=
  if 2 * (q.num - ⌊q⌋ * q.den) < (q.den : ℤ) then ⌊q⌋
  else if (q.den : ℤ) < 2 * (q.num - ⌊q⌋ * q.den) then ⌊q⌋ + 1
  else if ⌊q⌋ % 2 = 0 then ⌊q⌋ else ⌊q⌋ + 1

/-- The Python call `round(x, 3)` used by `print_results`: scale by
1000 (as `mkRat (q.num * 1000) q.den`, which equals `q * 1000`), round
half-to-even to an integer, and divide by 1000 again. -/
def round3 (q : ℚ) : ℚ := mkRat (roundHalfEven (mkRat (q.num * 1000) q.den)) 1000

/-- One line printed by `print_results`: the `Best params:` header, or a
trial line showing a rounded mean, a rounded band and a configuration. -/
inductive Line where
  | header (best : Params)
  | trial (mean band : ℚ) (ps : Params)
deriving DecidableEq

/-- Whether a printed line is the best-configuration header. -/
def Line.isHeader : Line → Bool
  | .header _ => true
  | _ => false

/-- Whether a printed line is a per-configuration trial line. -/
def Line.isTrial : Line → Bool
  | .trial _ _ _ => true
  | _ => false

/-- The configuration a printed line mentions. -/
def Line.lineParams : Line → Params
  | .header p => p
  | .trial _ _ p => p

/-- The helper `print_results(results)` defined identically in both
notebooks under `src/`: it prints `Best params:` with
`results.best_params_`, then iterates
`zip(means, stds, results.cv_results_[params])` and prints one line
per element: `round(mean, 3)`, then a plus-minus band `round(std * 2, 3)`,
then `params`.  The
Python `zip` truncates to its shortest argument, exactly as the nested
`List.zip` here does. -/
def print_results (results : CVResults) : List Line :=
  Line.header results.best_params ::
    ((results.mean_test_score.zip results.std_test_score).zip results.params).map
      (fun msp => Line.trial (round3 msp.1.1) (round3 (msp.1.2 * 2)) msp.2)

/-- Index of the first maximal element of a score list (`0` on `[]`). -/
def argmaxIdx : List ℚ → Nat
  | [] => 0
  | x :: xs => if x < xs.getD (argmaxIdx xs) x then argmaxIdx xs + 1 else 0

/-- Modelled from the spec: the grid enumeration done inside
`GridSearchCV` (library code, not in `src/`): the full cross-product of
the candidate value lists, with earlier-listed hyperparameters varying
slowest, matching the trial order visible in the notebook output. -/
def enumerateGrid : List (String × List PValue) → List Params
  | [] => [[]]
  | (k, vs) :: rest =>
    (vs.map (fun v => (enumerateGrid rest).map (fun p => (k, v) :: p))).flatten

/-- Modelled from the spec: `GridSearchCV(model, parameters, cv=5)`
(library code, not in `src/`).  It enumerates the grid, obtains for every
configuration the mean and standard deviation of its held-out fold
accuracies (the `score` argument stands for the fitting and scoring the
library performs), and selects as `best_params_` the configuration with
the maximum mean score, the first enumerated one winning ties. -/
def gridSearchCV (grid : List (String × List PValue)) (score : Params → ℚ × ℚ) :
    CVResults :=
  let ps := enumerateGrid grid
  let means := ps.map (fun p => (score p).1)
  { best_params := ps.getD (argmaxIdx means) []
    mean_test_score := means
    std_test_score := ps.map (fun p => (score p).2)
    params := ps }

/-- The random-forest hyperparameter grid of the notebook:
`n_estimators` over 5, 50, 250 and `max_depth` over 2, 4, 8, 16, 32 and
`None`, listed in the sorted key order the library enumerates
(`max_depth` varying slowest, as the notebook output shows). -/
def rfGrid : List (String × List PValue) :=
  [("max_depth", [.int 2, .int 4, .int 8, .int 16, .int 32, .none]),
   ("n_estimators", [.int 5, .int 50, .int 250])]

/-- The 18 mean test scores printed by the random-forest notebook run,
in enumeration order. -/
def rfMeans : List ℚ :=
  [mkRat 805 1000, mkRat 811 1000, mkRat 802 1000, mkRat 805 1000,
   mkRat 817 1000, mkRat 826 1000, mkRat 820 1000, mkRat 817 1000,
   mkRat 818 1000, mkRat 805 1000, mkRat 813 1000, mkRat 809 1000,
   mkRat 800 1000, mkRat 815 1000, mkRat 811 1000, mkRat 815 1000,
   mkRat 815 1000, mkRat 809 1000]

/-- Per-configuration standard deviations consistent with the bands the
random-forest notebook printed (half of each printed band). -/
def rfStds : List ℚ :=
  [mkRat 146 2000, mkRat 82 2000, mkRat 131 2000, mkRat 69 2000,
   mkRat 83 2000, mkRat 104 2000, mkRat 44 2000, mkRat 58 2000,
   mkRat 65 2000, mkRat 44 2000, mkRat 16 2000, mkRat 34 2000,
   mkRat 93 2000, mkRat 46 2000, mkRat 21 2000, mkRat 37 2000,
   mkRat 38 2000, mkRat 25 2000]

/-- Cross-validation scoring reproducing the scores observed in the
random-forest notebook run, keyed by the position of the configuration
in the grid enumeration. -/
def rfScore (p : Params) : ℚ × ℚ :=
  (rfMeans.getD ((enumerateGrid rfGrid).indexOf p) 0,
   rfStds.getD ((enumerateGrid rfGrid).indexOf p) 0)

/-- The grid-search result of the random-forest notebook run. -/
def rfCV : CVResults := gridSearchCV rfGrid rfScore

/-- A one-parameter grid with a tie at the maximum mean score, used to
witness the first-seen tie-break. -/
def tieGrid : List (String × List PValue) :=
  [("n_estimators", [.int 5, .int 50, .int 250])]

/-- Scores with a tie: the second and third configurations both attain
the maximum mean. -/
def tieScore (p : Params) : ℚ × ℚ :=
  ([mkRat 1 2, mkRat 4 5, mkRat 4 5].getD ((enumerateGrid tieGrid).indexOf p) 0, 0)

/-- A result object whose three lists have pairwise different lengths:
3 means, 2 standard deviations, 1 configuration. -/
def raggedCV : CVResults :=
  { best_params := []
    mean_test_score := [mkRat 1 2, mkRat 3 4, 1]
    std_test_score := [0, mkRat 1 10]
    params := [[]] }

/-- Modelled from the spec: the five model families the workflow trains
and compares.  The random-forest and boosting notebooks are in `src/`;
the logistic-regression, SVM and MLP notebooks are not. -/
inductive ModelFamily where
  | logisticRegression
  | svm
  | mlp
  | randomForest
  | gradientBoosting
deriving DecidableEq, Repr

/-- All five families, in the comparison order of the spec. -/
def allFamilies : List ModelFamily :=
  [.logisticRegression, .svm, .mlp, .randomForest, .gradientBoosting]

/-- File name under which the best estimator of each family is persisted.
The random-forest and boosting names appear in the `joblib.dump` calls
of the notebooks in `src/`; the other three are modelled from the
one-serialized-file-per-family requirement. -/
def modelFile : ModelFamily → String
  | .logisticRegression => "LR_model.pkl"
  | .svm => "SVM_model.pkl"
  | .mlp => "MLP_model.pkl"
  | .randomForest => "Random_forest_model.pkl"
  | .gradientBoosting => "Boosting_model.pkl"

/-- The fixed relative models directory the `joblib.dump` calls write
to. -/
def modelsDir : String := "./models/"

/-- Modelled from the spec: the persistence step of the workflow — one
artifact per family, the best estimator of each family serialized to its
fixed relative path. -/
def persistedArtifacts : List (ModelFamily × String) :=
  allFamilies.map (fun f => (f, modelsDir ++ modelFile f))

/-- Accuracy of predictions against labels: the fraction of aligned
pairs that agree (`mkRat`, so the value is exact and a zero denominator
yields 0). -/
def accuracyQ (pred lab : List Bool) : ℚ :=
  mkRat ((pred.zip lab).filter (fun pl => pl.1 == pl.2)).length (pred.zip lab).length

/-- Precision: true positives over predicted positives (0 when nothing
is predicted positive, the zero-division fallback of the library). -/
def precisionQ (pred lab : List Bool) : ℚ :=
  mkRat ((pred.zip lab).filter (fun pl => pl.1 && pl.2)).length
    ((pred.zip lab).filter (fun pl => pl.1)).length

/-- Recall: true positives over actual positives (0 when no label is
positive). -/
def recallQ (pred lab : List Bool) : ℚ :=
  mkRat ((pred.zip lab).filter (fun pl => pl.1 && pl.2)).length
    ((pred.zip lab).filter (fun pl => pl.2)).length

/-- Modelled from the spec: a persisted estimator as reloaded by the
comparison notebook (which is not in `src/`): a display name and a
prediction function. -/
structure LoadedModel where
  name : String
  predictRow : List ℚ → Bool

/-- One printed row of the final comparison table. -/
structure EvalRow where
  name : String
  acc : ℚ
  prec : ℚ
  recl : ℚ
  latency : ℚ
deriving DecidableEq

/-- Modelled from the spec: the comparison/evaluation loop (its notebook
is not in `src/`): reload each persisted estimator, run it once over the
validation features `xs`, compute accuracy, precision and recall against
the labels `ys`, record the measured wall-clock inference time
(`elapsed`, supplied as an input: real time is outside a pure
embedding), and print one row per model. -/
def evaluateModels (models : List LoadedModel) (xs : List (List ℚ))
    (ys : List Bool) (elapsed : String → ℚ) : List EvalRow :=
  models.map (fun m =>
    { name := m.name
      acc := accuracyQ (xs.map m.predictRow) ys
      prec := precisionQ (xs.map m.predictRow) ys
      recl := recallQ (xs.map m.predictRow) ys
      latency := elapsed m.name })

/-- Two concrete reloaded models for the evaluation-loop witness. -/
def demoModels : List LoadedModel :=
  [{ name := "RF", predictRow := fun x => x.length == 1 },
   { name := "GB", predictRow := fun _ => false }]

/-- Three one-feature validation rows. -/
def demoXs : List (List ℚ) := [[1], [2], [3]]

/-- The matching validation labels. -/
def demoYs : List Bool := [true, false, true]

/-- A trained estimator: its family, its chosen hyperparameters and its
learned parameters.  Modelled from the spec: the library estimator
object is opaque; what persistence must preserve is exactly this data. -/
structure Estimator where
  family : ModelFamily
  hyper : Params
  weights : List ℚ
deriving DecidableEq

/-- Modelled from the spec: the prediction of an estimator on one feature
row, a deterministic function of its learned parameters — here a linear
threshold on the learned weights. -/
def Estimator.predictRow (e : Estimator) (x : List ℚ) : Bool :=
  decide (0 ≤ ((e.weights.zip x).map (fun wx => wx.1 * wx.2)).sum)

/-- Tokens of the modelled serialization format.  Modelled from the
spec: the `joblib` binary format is opaque library code; it is modelled
as a token stream recording every field of the estimator. -/
inductive SerTok where
  | nat (n : Nat)
  | int (n : Int)
  | rat (q : ℚ)
  | str (s : String)
deriving DecidableEq

/-- Numeric tag of each model family inside the serialized form. -/
def familyTag : ModelFamily → Nat
  | .logisticRegression => 0
  | .svm => 1
  | .mlp => 2
  | .randomForest => 3
  | .gradientBoosting => 4

/-- Decode a family tag. -/
def tagFamily : Nat → Option ModelFamily
  | 0 => some .logisticRegression
  | 1 => some .svm
  | 2 => some .mlp
  | 3 => some .randomForest
  | 4 => some .gradientBoosting
  | _ => Option.none

/-- Encode one hyperparameter value. -/
def encPValue : PValue → List SerTok
  | .int n => [.nat 0, .int n]
  | .rat q => [.nat 1, .rat q]
  | .none => [.nat 2]

/-- Decode one hyperparameter value, returning the remaining tokens. -/
def decPValue : List SerTok → Option (PValue × List SerTok)
  | .nat 0 :: .int n :: rest => some (.int n, rest)
  | .nat 1 :: .rat q :: rest => some (.rat q, rest)
  | .nat 2 :: rest => some (.none, rest)
  | _ => Option.none

/-- Encode a hyperparameter assignment. -/
def encParams : Params → List SerTok
  | [] => []
  | (k, v) :: tl => SerTok.str k :: (encPValue v ++ encParams tl)

/-- Decode `n` hyperparameter pairs. -/
def decParams : Nat → List SerTok → Option (Params × List SerTok)
  | 0, rest => some ([], rest)
  | n + 1, SerTok.str k :: rest =>
    match decPValue rest with
    | some (v, rest2) =>
      match decParams n rest2 with
      | some (ps, rest3) => some ((k, v) :: ps, rest3)
      | Option.none => Option.none
    | Option.none => Option.none
  | _ + 1, _ => Option.none

/-- Encode the learned weights. -/
def encRats (ws : List ℚ) : List SerTok := ws.map SerTok.rat

/-- Decode `n` learned weights. -/
def decRats : Nat → List SerTok → Option (List ℚ × List SerTok)
  | 0, rest => some ([], rest)
  | n + 1, SerTok.rat q :: rest =>
    match decRats n rest with
    | some (ws, rest2) => some (q :: ws, rest2)
    | Option.none => Option.none
  | _ + 1, _ => Option.none

/-- Modelled from the spec: `joblib.dump`, as the token stream holding
the family tag, the hyperparameters with a count, and the weights with
a count. -/
def serialize (e : Estimator) : List SerTok :=
  SerTok.nat (familyTag e.family) :: SerTok.nat e.hyper.length ::
    (encParams e.hyper ++ SerTok.nat e.weights.length :: encRats e.weights)

/-- Modelled from the spec: `joblib.load`, inverting `serialize`;
malformed streams yield `none`. -/
def deserialize (toks : List SerTok) : Option Estimator :=
  match toks with
  | SerTok.nat t :: SerTok.nat n :: rest =>
    match tagFamily t with
    | some fam =>
      match decParams n rest with
      | some (ps, SerTok.nat m :: rest2) =>
        match decRats m rest2 with
        | some (ws, []) => some ⟨fam, ps, ws⟩
        | _ => Option.none
      | _ => Option.none
    | Option.none => Option.none
  | _ => Option.none

/-- A labeled dataset: one feature row and one binary label per entry. -/
abbrev Dataset := List (List ℚ × Bool)

/-- Modelled from the spec: the fold the 5-fold splitter assigns to row
`i`, a deterministic function of the random seed of the run. -/
def foldOf (seed i : Nat) : Nat := (i + seed) % 5

/-- The numeric weight a hyperparameter value contributes to the
modelled trial predictor. -/
def pWeight : PValue → ℚ
  | .int n => (n : ℚ)
  | .rat q => q
  | .none => 0

/-- Modelled from the spec: the prediction of the fitted trial model for
one configuration (the fitting is opaque library code; its outcome is a
deterministic function of the configuration and the row). -/
def trialPredict (p : Params) (x : List ℚ) : Bool :=
  decide ((p.map (fun kv => pWeight kv.2)).sum ≤ x.sum)

/-- The rows held out as fold `f`. -/
def foldRows (data : Dataset) (seed f : Nat) : Dataset :=
  (data.enum.filter (fun ir => foldOf seed ir.1 == f)).map Prod.snd

/-- Held-out accuracy of one configuration on one fold. -/
def foldAcc (data : Dataset) (seed : Nat) (p : Params) (f : Nat) : ℚ :=
  accuracyQ ((foldRows data seed f).map (fun r => trialPredict p r.1))
    ((foldRows data seed f).map Prod.snd)

/-- Modelled from the spec: the mean and spread of the five held-out
fold accuracies of one configuration.  The spread is carried as the
variance: a square root does not stay inside ℚ, and no claim depends on
its exact value. -/
def cvScore (data : Dataset) (seed : Nat) (p : Params) : ℚ × ℚ :=
  ((((List.range 5).map (foldAcc data seed p)).sum) * mkRat 1 5,
   ((((List.range 5).map (foldAcc data seed p)).map
      (fun a => (a - (((List.range 5).map (foldAcc data seed p)).sum) * mkRat 1 5) *
        (a - (((List.range 5).map (foldAcc data seed p)).sum) * mkRat 1 5))).sum) *
     mkRat 1 5)

/-- Modelled from the spec: one grid-search-and-report run of the
workflow over a fixed dataset with a fixed seed. -/
def runWorkflow (data : Dataset) (seed : Nat)
    (grid : List (String × List PValue)) : List Line :=
  print_results (gridSearchCV grid (cvScore data seed))

/-- The configuration a run selects. -/
def selectedBest (data : Dataset) (seed : Nat)
    (grid : List (String × List PValue)) : Params :=
  (gridSearchCV grid (cvScore data seed)).best_params

/-- A small fixed labeled dataset for the reproducibility witness. -/
def demoData : Dataset :=
  [([1, 0], true), ([0, 0], false), ([2, 1], true),
   ([0, 1], false), ([1, 1], true), ([3, 0], true)]

/-- A two-configuration grid for the reproducibility witness. -/
def demoGrid : List (String × List PValue) :=
  [("n_estimators", [.int 5, .int 50])]

/-- The first-maximum index of a non-empty list is in range. -/
theorem argmaxIdx_lt_length (l : List ℚ) (hl : l ≠ []) : argmaxIdx l < l.length := by
  induction l with
  | nil => exact absurd rfl hl
  | cons x xs ih =>
    by_cases hxs : xs = []
    · subst hxs; simp [argmaxIdx]
    · simp only [argmaxIdx, List.length_cons]
      split
      · exact Nat.succ_lt_succ (ih hxs)
      · exact Nat.succ_pos _

/-- Every entry of a score list is at most the entry at `argmaxIdx`. -/
theorem le_argmax (l : List ℚ) : ∀ i, i < l.length → l.getD i 0 ≤ l.getD (argmaxIdx l) 0 := by
  induction l with
  | nil => intro i hi; simp at hi
  | cons x xs ih =>
    intro i hi
    by_cases hxs : xs = []
    · subst hxs
      have hi0 : i = 0 := by simpa using hi
      subst hi0; simp [argmaxIdx]
    · have hj := argmaxIdx_lt_length xs hxs
      have hgetD : xs.getD (argmaxIdx xs) x = xs.getD (argmaxIdx xs) 0 := by
        rw [List.getD_eq_getElem _ _ hj, List.getD_eq_getElem _ _ hj]
      simp only [argmaxIdx, hgetD]
      by_cases hc : x < xs.getD (argmaxIdx xs) 0
      · simp only [if_pos hc, List.getD_cons_succ]
        cases i with
        | zero => exact le_of_lt (by simpa using hc)
        | succ i =>
          simp only [List.getD_cons_succ]
          exact ih i (Nat.lt_of_succ_lt_succ hi)
      · simp only [if_neg hc, List.getD_cons_zero]
        cases i with
        | zero => simp
        | succ i =>
          simp only [List.getD_cons_succ]
          exact le_trans (ih i (Nat.lt_of_succ_lt_succ hi)) (not_lt.mp hc)

/-- Entries strictly before `argmaxIdx` are strictly below the maximum:
the selected index is the first one attaining the maximum. -/
theorem lt_argmax_of_lt (l : List ℚ) :
    ∀ i, i < argmaxIdx l → l.getD i 0 < l.getD (argmaxIdx l) 0 := by
  induction l with
  | nil => intro i hi; simp [argmaxIdx] at hi
  | cons x xs ih =>
    intro i hi
    by_cases hxs : xs = []
    · subst hxs; simp [argmaxIdx] at hi
    · have hj := argmaxIdx_lt_length xs hxs
      have hgetD : xs.getD (argmaxIdx xs) x = xs.getD (argmaxIdx xs) 0 := by
        rw [List.getD_eq_getElem _ _ hj, List.getD_eq_getElem _ _ hj]
      simp only [argmaxIdx, hgetD] at hi ⊢
      by_cases hc : x < xs.getD (argmaxIdx xs) 0
      · simp only [if_pos hc] at hi ⊢
        cases i with
        | zero => simpa using hc
        | succ i =>
          simp only [List.getD_cons_succ]
          exact ih i (Nat.lt_of_succ_lt_succ hi)
      · simp only [if_neg hc] at hi
        exact absurd hi (Nat.not_lt_zero i)

/-- An index attaining the maximum score is at least `argmaxIdx`:
first-seen wins on ties. -/
theorem argmax_le_of_eq (l : List ℚ) (i : Nat)
    (he : l.getD i 0 = l.getD (argmaxIdx l) 0) : argmaxIdx l ≤ i := by
  by_contra hcon
  push_neg at hcon
  exact absurd he (ne_of_lt (lt_argmax_of_lt l i hcon))

/-- The trial lines of `print_results` are exactly the mapped zip of the
three score lists; the header is filtered out. -/
theorem filter_isTrial_print (r : CVResults) :
    (print_results r).filter Line.isTrial =
      ((r.mean_test_score.zip r.std_test_score).zip r.params).map
        (fun msp => Line.trial (round3 msp.1.1) (round3 (msp.1.2 * 2)) msp.2) := by
  unfold print_results
  rw [List.filter_cons_of_neg (by simp [Line.isTrial]), List.filter_map]
  have hconst : (Line.isTrial ∘ fun msp : (ℚ × ℚ) × Params =>
      Line.trial (round3 msp.1.1) (round3 (msp.1.2 * 2)) msp.2) = fun _ => true := by
    funext msp; rfl
  rw [hconst, List.filter_true]

/-- Filtering the printed output for header lines leaves exactly the one
header. -/
theorem filter_isHeader_print (r : CVResults) :
    (print_results r).filter Line.isHeader = [Line.header r.best_params] := by
  simp [print_results, List.filter_map, Function.comp, Line.isHeader, Line.isTrial]

/-- The grid enumeration has exactly the cross-product size: the product
of the value-list lengths. -/
theorem length_enumerateGrid (g : List (String × List PValue)) :
    (enumerateGrid g).length = (g.map (fun kv => kv.2.length)).prod := by
  induction g with
  | nil => rfl
  | cons kv rest ih =>
    obtain ⟨k, vs⟩ := kv
    simp only [enumerateGrid, List.map_cons, List.prod_cons, ← ih]
    induction vs with
    | nil => simp
    | cons v vs ihv =>
      simp only [List.map_cons, List.flatten_cons, List.length_append, List.length_map,
        List.length_cons, ihv]
      ring

/-- The three score lists produced by the modelled grid search all have
the length of the enumeration. -/
theorem gridSearchCV_lengths (grid : List (String × List PValue))
    (score : Params → ℚ × ℚ) :
    (gridSearchCV grid score).mean_test_score.length = (enumerateGrid grid).length ∧
    (gridSearchCV grid score).std_test_score.length = (enumerateGrid grid).length ∧
    (gridSearchCV grid score).params.length = (enumerateGrid grid).length := by
  simp [gridSearchCV]

/-- The number of trial lines equals the number of mean scores when the
result comes from the modelled grid search. -/
theorem trial_count_eq (grid : List (String × List PValue)) (score : Params → ℚ × ℚ) :
    ((print_results (gridSearchCV grid score)).filter Line.isTrial).length =
      (gridSearchCV grid score).mean_test_score.length := by
  rw [filter_isTrial_print]
  simp [gridSearchCV]

/-- C2: for every non-empty hyperparameter grid whose cross-product
enumerates `N` configurations, `print_results` applied to the
grid-search result prints exactly `N` trial lines plus exactly one
preceding best-configuration header line. -/
theorem print_results_line_count (grid : List (String × List PValue))
    (score : Params → ℚ × ℚ)
    (_hpos : 0 < (grid.map (fun kv => kv.2.length)).prod) :
    ((print_results (gridSearchCV grid score)).filter Line.isTrial).length =
      (grid.map (fun kv => kv.2.length)).prod ∧
    ((print_results (gridSearchCV grid score)).filter Line.isHeader).length = 1 ∧
    (print_results (gridSearchCV grid score)).head? =
      some (Line.header (gridSearchCV grid score).best_params) ∧
    (print_results (gridSearchCV grid score)).length =
      (grid.map (fun kv => kv.2.length)).prod + 1 := by
  have hN := length_enumerateGrid grid
  refine ⟨?_, ?_, rfl, ?_⟩
  · rw [trial_count_eq]
    simp [gridSearchCV, hN]
  · rw [filter_isHeader_print]
    rfl
  · simp [print_results, gridSearchCV, hN]

/-- Witness for C2 at the random-forest notebook grid: 18
configurations, 18 trial lines. -/
theorem print_results_line_count_witness :
    0 < (rfGrid.map (fun kv => kv.2.length)).prod ∧
    ((print_results (gridSearchCV rfGrid rfScore)).filter Line.isTrial).length =
      (rfGrid.map (fun kv => kv.2.length)).prod ∧
    (rfGrid.map (fun kv => kv.2.length)).prod = 18 :=
  ⟨by decide, (print_results_line_count rfGrid rfScore (by decide)).1, by decide⟩

/-- C1: the header line of `print_results` names the configuration at
the first-maximum index of the mean scores; the mean of that configuration
score is at least every mean score underlying a printed trial line, so
the reported best equals the maximum over the printed table even though
the table is not sorted. -/
theorem best_header_is_argmax (grid : List (String × List PValue))
    (score : Params → ℚ × ℚ) (hne : enumerateGrid grid ≠ []) :
    (print_results (gridSearchCV grid score)).head? =
      some (Line.header (gridSearchCV grid score).best_params) ∧
    (gridSearchCV grid score).best_params =
      (gridSearchCV grid score).params.getD
        (argmaxIdx (gridSearchCV grid score).mean_test_score) [] ∧
    argmaxIdx (gridSearchCV grid score).mean_test_score <
      ((print_results (gridSearchCV grid score)).filter Line.isTrial).length ∧
    (∀ i, i < ((print_results (gridSearchCV grid score)).filter Line.isTrial).length →
      (gridSearchCV grid score).mean_test_score.getD i 0 ≤
        (gridSearchCV grid score).mean_test_score.getD
          (argmaxIdx (gridSearchCV grid score).mean_test_score) 0) := by
  have hmeans : (gridSearchCV grid score).mean_test_score ≠ [] := by
    simp only [gridSearchCV]
    simpa using hne
  refine ⟨rfl, rfl, ?_, ?_⟩
  · rw [trial_count_eq]
    exact argmaxIdx_lt_length _ hmeans
  · intro i hi
    rw [trial_count_eq] at hi
    exact le_argmax _ i hi

/-- Witness for C1 at the random-forest notebook run: the best header
names the sixth enumerated configuration, `max_depth := 4`,
`n_estimators := 250`, the argmax of the observed means. -/
theorem best_header_is_argmax_witness :
    enumerateGrid rfGrid ≠ [] ∧
    (print_results (gridSearchCV rfGrid rfScore)).head? =
      some (Line.header (gridSearchCV rfGrid rfScore).best_params) ∧
    argmaxIdx (gridSearchCV rfGrid rfScore).mean_test_score = 5 ∧
    (gridSearchCV rfGrid rfScore).best_params =
      [("max_depth", PValue.int 4), ("n_estimators", PValue.int 250)] :=
  ⟨by decide, (best_header_is_argmax rfGrid rfScore (by decide)).1, by decide, by decide⟩

/-- C3: the `i`-th trial line displays exactly `round3` of the `i`-th
mean and `round3` of twice the `i`-th standard deviation, together with
the `i`-th configuration: plain 3-decimal rounding, no other
transformation. -/
theorem trial_line_values (r : CVResults) (i : Nat)
    (hi : i < ((print_results r).filter Line.isTrial).length) :
    ((print_results r).filter Line.isTrial).getD i (Line.header []) =
      Line.trial (round3 (r.mean_test_score.getD i 0))
        (round3 (r.std_test_score.getD i 0 * 2)) (r.params.getD i []) := by
  rw [filter_isTrial_print] at hi ⊢
  have hiL : i < ((r.mean_test_score.zip r.std_test_score).zip r.params).length := by
    simpa using hi
  have hsplit : i < r.mean_test_score.length ∧ i < r.std_test_score.length ∧
      i < r.params.length := by
    simp only [List.length_zip, lt_min_iff] at hiL
    exact ⟨hiL.1.1, hiL.1.2, hiL.2⟩
  rw [List.getD_eq_getElem _ _ hi, List.getElem_map, List.getElem_zip, List.getElem_zip]
  rw [List.getD_eq_getElem _ _ hsplit.1, List.getD_eq_getElem _ _ hsplit.2.1,
    List.getD_eq_getElem _ _ hsplit.2.2]

/-- Witness for C3 at the first trial line of the random-forest run. -/
theorem trial_line_values_witness :
    0 < ((print_results rfCV).filter Line.isTrial).length ∧
    ((print_results rfCV).filter Line.isTrial).getD 0 (Line.header []) =
      Line.trial (round3 (rfCV.mean_test_score.getD 0 0))
        (round3 (rfCV.std_test_score.getD 0 0 * 2)) (rfCV.params.getD 0 []) :=
  ⟨by decide, trial_line_values rfCV 0 (by decide)⟩

/-- C4: trial lines appear in the original grid enumeration order, not
sorted by score, and in the random-forest notebook run the best
configuration is not the first printed line (it is the sixth). -/
theorem trials_in_enumeration_order :
    (∀ (grid : List (String × List PValue)) (score : Params → ℚ × ℚ),
      (((print_results (gridSearchCV grid score)).filter Line.isTrial).map
        Line.lineParams) = enumerateGrid grid) ∧
    rfCV.best_params = rfCV.params.getD (argmaxIdx rfCV.mean_test_score) [] ∧
    ((print_results rfCV).getD 1 (Line.header [])).lineParams ≠ rfCV.best_params := by
  refine ⟨?_, rfl, by decide⟩
  intro grid score
  rw [filter_isTrial_print]
  have hlen : (gridSearchCV grid score).params.length ≤
      ((gridSearchCV grid score).mean_test_score.zip
        (gridSearchCV grid score).std_test_score).length := by
    simp [gridSearchCV]
  calc ((((gridSearchCV grid score).mean_test_score.zip
            (gridSearchCV grid score).std_test_score).zip
          (gridSearchCV grid score).params).map
            (fun msp => Line.trial (round3 msp.1.1) (round3 (msp.1.2 * 2)) msp.2)).map
              Line.lineParams
      = (((gridSearchCV grid score).mean_test_score.zip
            (gridSearchCV grid score).std_test_score).zip
          (gridSearchCV grid score).params).map Prod.snd := by
        rw [List.map_map]; rfl
    _ = (gridSearchCV grid score).params := List.map_snd_zip _ _ hlen
    _ = enumerateGrid grid := rfl

/-- C5: the selected best configuration is the one at the first index
attaining the maximum mean score: when several configurations tie at
the maximum, the first enumerated one wins. -/
theorem tie_break_first_enumerated (grid : List (String × List PValue))
    (score : Params → ℚ × ℚ) (i : Nat)
    (_hi : i < (gridSearchCV grid score).mean_test_score.length)
    (he : (gridSearchCV grid score).mean_test_score.getD i 0 =
      (gridSearchCV grid score).mean_test_score.getD
        (argmaxIdx (gridSearchCV grid score).mean_test_score) 0) :
    argmaxIdx (gridSearchCV grid score).mean_test_score ≤ i ∧
    (gridSearchCV grid score).best_params =
      (gridSearchCV grid score).params.getD
        (argmaxIdx (gridSearchCV grid score).mean_test_score) [] :=
  ⟨argmax_le_of_eq _ i he, rfl⟩

/-- Witness for C5: with means `1/2, 4/5, 4/5` the tied maximum is
attained at indices 1 and 2 and the selected index is 1, the first. -/
theorem tie_break_first_enumerated_witness :
    2 < (gridSearchCV tieGrid tieScore).mean_test_score.length ∧
    (gridSearchCV tieGrid tieScore).mean_test_score.getD 2 0 =
      (gridSearchCV tieGrid tieScore).mean_test_score.getD
        (argmaxIdx (gridSearchCV tieGrid tieScore).mean_test_score) 0 ∧
    argmaxIdx (gridSearchCV tieGrid tieScore).mean_test_score = 1 ∧
    argmaxIdx (gridSearchCV tieGrid tieScore).mean_test_score ≤ 2 ∧
    (gridSearchCV tieGrid tieScore).best_params = [("n_estimators", PValue.int 50)] :=
  ⟨by decide, by decide, by decide,
    (tie_break_first_enumerated tieGrid tieScore 2 (by decide) (by decide)).1, by decide⟩

/-- C10: on a result whose three lists have unequal lengths,
`print_results` still returns output (the embedding is total, as the
Python `zip` never raises): the header followed by exactly
`min (min means stds) params` many trial lines, surplus entries of the
longer lists ignored. -/
theorem print_results_truncates (r : CVResults)
    (_hne : ¬(r.mean_test_score.length = r.std_test_score.length ∧
      r.std_test_score.length = r.params.length)) :
    (print_results r).head? = some (Line.header r.best_params) ∧
    ((print_results r).filter Line.isTrial).length =
      min (min r.mean_test_score.length r.std_test_score.length) r.params.length := by
  refine ⟨rfl, ?_⟩
  rw [filter_isTrial_print]
  simp

/-- Witness for C10 on the ragged result: lengths 3, 2, 1 give exactly
one trial line after the header. -/
theorem print_results_truncates_witness :
    ¬(raggedCV.mean_test_score.length = raggedCV.std_test_score.length ∧
      raggedCV.std_test_score.length = raggedCV.params.length) ∧
    ((print_results raggedCV).filter Line.isTrial).length = 1 := by
  refine ⟨by decide, ?_⟩
  have h := (print_results_truncates raggedCV (by decide)).2
  simpa using h

/-- C6: the workflow covers all five model families, each persisted as
exactly one serialized file, with all file paths distinct and inside
the fixed relative models directory. -/
theorem five_families_persisted :
    allFamilies.length = 5 ∧
    allFamilies.Nodup ∧
    persistedArtifacts.map Prod.fst = allFamilies ∧
    (persistedArtifacts.map Prod.snd).Nodup ∧
    persistedArtifacts.all (fun a => a.2 == modelsDir ++ modelFile a.1) = true := by
  refine ⟨rfl, by decide, rfl, by decide, by decide⟩

/-- C7: the evaluation loop prints exactly one row per persisted model,
and the `i`-th row carries the name of that model, its accuracy, precision
and recall over the validation partition, and its measured latency. -/
theorem evaluation_loop_rows (models : List LoadedModel) (xs : List (List ℚ))
    (ys : List Bool) (elapsed : String → ℚ) (i : Nat) (hi : i < models.length) :
    (evaluateModels models xs ys elapsed).length = models.length ∧
    (evaluateModels models xs ys elapsed).getD i ⟨"", 0, 0, 0, 0⟩ =
      { name := (models.getD i ⟨"", fun _ => false⟩).name
        acc := accuracyQ (xs.map (models.getD i ⟨"", fun _ => false⟩).predictRow) ys
        prec := precisionQ (xs.map (models.getD i ⟨"", fun _ => false⟩).predictRow) ys
        recl := recallQ (xs.map (models.getD i ⟨"", fun _ => false⟩).predictRow) ys
        latency := elapsed (models.getD i ⟨"", fun _ => false⟩).name } := by
  have hmap : i < (evaluateModels models xs ys elapsed).length := by
    simpa [evaluateModels] using hi
  refine ⟨by simp [evaluateModels], ?_⟩
  rw [List.getD_eq_getElem _ _ hmap]
  rw [List.getD_eq_getElem _ _ hi]
  simp only [evaluateModels, List.getElem_map]

/-- Witness for C7: the first row of the loop on the demo data reports
the RF model with accuracy 2/3, precision 2/3, recall 1 and the given
latency. -/
theorem evaluation_loop_rows_witness :
    0 < demoModels.length ∧
    (evaluateModels demoModels demoXs demoYs (fun _ => 5)).getD 0 ⟨"", 0, 0, 0, 0⟩ =
      { name := "RF", acc := mkRat 2 3, prec := mkRat 2 3, recl := 1, latency := 5 } := by
  refine ⟨by decide, ?_⟩
  have h := (evaluation_loop_rows demoModels demoXs demoYs (fun _ => 5) 0 (by decide)).2
  rw [h]
  decide

/-- Decoding inverts the family tag. -/
theorem tagFamily_familyTag (f : ModelFamily) : tagFamily (familyTag f) = some f := by
  cases f <;> rfl

/-- Decoding inverts value encoding. -/
theorem decPValue_enc (v : PValue) (rest : List SerTok) :
    decPValue (encPValue v ++ rest) = some (v, rest) := by
  cases v <;> rfl

/-- Decoding inverts hyperparameter encoding. -/
theorem decParams_enc (ps : Params) (rest : List SerTok) :
    decParams ps.length (encParams ps ++ rest) = some (ps, rest) := by
  induction ps with
  | nil => rfl
  | cons kv tl ih =>
    obtain ⟨k, v⟩ := kv
    simp only [encParams, List.length_cons, List.cons_append, List.append_eq,
      List.append_assoc, decParams, decPValue_enc, ih]

/-- Decoding inverts weight encoding. -/
theorem decRats_enc (ws : List ℚ) (rest : List SerTok) :
    decRats ws.length (encRats ws ++ rest) = some (ws, rest) := by
  induction ws with
  | nil => rfl
  | cons w tl ih =>
    simp only [encRats, List.length_cons, List.map_cons, List.cons_append,
      List.append_eq, decRats] at ih ⊢
    rw [ih]

/-- Weight decoding at exactly the encoded stream consumes it fully. -/
theorem decRats_enc_nil (ws : List ℚ) : decRats ws.length (encRats ws) = some (ws, []) := by
  have h := decRats_enc ws []
  simpa using h

/-- A reloaded estimator equals the serialized one. -/
theorem deserialize_serialize (e : Estimator) : deserialize (serialize e) = some e := by
  obtain ⟨fam, hyper, ws⟩ := e
  simp only [serialize, deserialize, tagFamily_familyTag, decParams_enc, decRats_enc_nil]

/-- C8: serializing an estimator and reloading it yields an estimator
with identical predictions on any fixed evaluation partition, hence
identical accuracy, precision and recall against its labels. -/
theorem persistence_round_trip (e : Estimator) (xs : List (List ℚ)) (ys : List Bool) :
    ∃ e2, deserialize (serialize e) = some e2 ∧
      xs.map e2.predictRow = xs.map e.predictRow ∧
      accuracyQ (xs.map e2.predictRow) ys = accuracyQ (xs.map e.predictRow) ys ∧
      precisionQ (xs.map e2.predictRow) ys = precisionQ (xs.map e.predictRow) ys ∧
      recallQ (xs.map e2.predictRow) ys = recallQ (xs.map e.predictRow) ys :=
  ⟨e, deserialize_serialize e, rfl, rfl, rfl, rfl⟩

/-- C9: two runs over the same fixed dataset with the same fixed seed
and the same grid select an identical best configuration and print
identical lines (identical rounded means and bands): the embedded
workflow is a pure function of dataset, seed and grid. -/
theorem seeded_runs_identical (d1 d2 : Dataset) (s1 s2 : Nat)
    (g1 g2 : List (String × List PValue))
    (hd : d1 = d2) (hs : s1 = s2) (hg : g1 = g2) :
    selectedBest d1 s1 g1 = selectedBest d2 s2 g2 ∧
    runWorkflow d1 s1 g1 = runWorkflow d2 s2 g2 := by
  subst hd
  subst hs
  subst hg
  exact ⟨rfl, rfl⟩

/-- Witness for C9: two runs at dataset `demoData`, seed 42 and grid
`demoGrid` coincide. -/
theorem seeded_runs_identical_witness :
    selectedBest demoData 42 demoGrid = selectedBest demoData 42 demoGrid ∧
    runWorkflow demoData 42 demoGrid = runWorkflow demoData 42 demoGrid :=
  seeded_runs_identical demoData demoData 42 42 demoGrid demoGrid rfl rfl rfl

end Titanic
